import Mathlib

/-!
Shallow embedding of the pyoperant experiment-control runtime (states,
queues, trials, blocks, subjects, hardware polling) together with proofs
about the behaviors described in the specification.

Machine conventions used throughout:
* Python exceptions and control signals are an explicit inductive `PyExc`;
  fallible code returns `Except PyExc _`.
* Loops that the source writes as `while True` are embedded with an explicit
  fuel argument; a result of `none` for every fuel value means the loop
  never returns.
* Python 2 cross-type comparisons (`int >= None` is `True` in Python 2,
  since `None` sorts below every number) are embedded explicitly where the
  source relies on them.
-/

namespace Pyoperant

/-- Python exceptions and control signals that appear in the modelled code.
`endSession` / `endExperiment` are the structured control signals from
`pyoperant/errors`; the rest are builtin Python exceptions. -/
inductive PyExc where
  | endSession
  | endExperiment
  | keyboardInterrupt
  | keyError
  | attributeError
  | valueError
  deriving DecidableEq, Repr

/-! ### `interfaces/base_.py` : `BaseInterface._poll`

The source loop is

```
if timeout is not None:
    start = time.time()
while True:
    if self._read_bool(**params):
        break
    if timeout is not None:
        if time.time() - start >= timeout:
            logger.debug("Polling timed out. Returning")
    if wait is not None:
        utils.wait(wait)
return datetime.datetime.now()
```

We embed the abstract clock as the iteration counter: the n-th call of
`_read_bool` happens at instant `n`, with `start = 0`.  `reads n` is the
value `_read_bool` returns at instant `n`.  The body of the timeout test in
the source only emits a log line — it neither breaks nor returns — so the
embedding's recursion ignores the test's outcome exactly as the source
does.  `fuel` bounds the number of iterations we unfold; `none` means the
loop has not returned within `fuel` iterations. -/
def pollLoop (reads : ℕ → Bool) (timeout : Option ℕ) : ℕ → ℕ → Option ℕ
  | _n, 0 => none
  | n, fuel + 1 =>
    if reads n then
      some n
    else
      -- source: when `timeout` has elapsed the loop only logs
      -- "Polling timed out. Returning" and keeps looping
      pollLoop reads timeout (n + 1) fuel

/-- `BooleanInput.poll` (hwio.py): `if hasattr(self.interface, "poll"):
return self.interface._poll(timeout=timeout, **self.params)`.  When the
interface lacks a `poll` attribute the method falls through and returns
`None` immediately (note the source tests for attribute `poll` although
interfaces define `_poll`). -/
def BooleanInput_poll (interfaceHasPollAttr : Bool) (reads : ℕ → Bool)
    (timeout : Option ℕ) (fuel : ℕ) : Option ℕ :=
  if interfaceHasPollAttr then pollLoop reads timeout 0 fuel else none

/-! ### `states.py` : `Idle.run`

The source is

```
def run(self):
    while True:
        for state in self.experiment.states:
            state.check()
    try:
        if self.experiment.check_light_schedule() == False:
            return "sleep"
        elif self.experiment.check_session_schedule():
            return "session"
        else:
            ...
            return "idle"
    except KeyboardInterrupt:
        ...
```

The `while True` loop at the top has no `break` or `return`, so the `try`
block below it is unreachable.  We embed the loop with fuel (`none` =
still looping) and, separately, embed the unreachable body so that the
intended behavior can be stated. -/
def idleCheckLoop : ℕ → Option String
  | 0 => none
  | fuel + 1 => idleCheckLoop fuel

/-- The unreachable `try` block of `Idle.run`: the schedule dispatch the
specification describes. -/
def idleRunBody (lightScheduleOk sessionScheduleOk : Bool) : String :=
  if lightScheduleOk == false then "sleep"
  else if sessionScheduleOk then "session"
  else "idle"

/-- `Idle.run` as written: the infinite scheduler-checking loop runs first;
the dispatch block never executes. -/
def Idle_run (lightScheduleOk sessionScheduleOk : Bool) (fuel : ℕ) :
    Option String :=
  match idleCheckLoop fuel with
  | some s => some s
  | none =>
    -- unreachable continuation kept for reference
    let _ := idleRunBody lightScheduleOk sessionScheduleOk
    none

/-! ### `states.py` : `run_state_machine`

```
state_name = start_in
while state_name is not None:
    try:
        with states[state_name](experiment) as state:
            state_name = state.run()
    except EndExperiment:
        state_name = None
    except Exception as e:
        if error_callback:
            error_callback(e)
            raise
        else:
            raise
        state_name = error_state
```

A state's `run()` either returns the next state name (`None` ends the
loop) or raises.  `behavior step s` gives the outcome of running state `s`
on the `step`-th loop iteration. -/
inductive RunOutcome where
  | next (s : Option String)
  | throw (e : PyExc)
  deriving DecidableEq, Repr

/-- Result of `run_state_machine`.  `errored e cb` means the exception `e`
propagated out of the function, `cb` recording whether the error callback
was invoked first. -/
inductive SMResult where
  | finished
  | errored (e : PyExc) (callbackInvoked : Bool)
  | outOfFuel
  deriving DecidableEq, Repr

/-- `run_state_machine` as written.  On a non-`EndExperiment` exception the
source invokes `error_callback(e)` and then immediately re-raises; the
trailing assignment `state_name = error_state` sits after an unconditional
`raise` on both branches and is dead code, so `error_state` never affects
the result. -/
def run_state_machine (behavior : ℕ → String → RunOutcome)
    (error_state : Option String) (has_error_callback : Bool) :
    String → ℕ → ℕ → SMResult
  | _s, _step, 0 => SMResult.outOfFuel
  | s, step, fuel + 1 =>
    match behavior step s with
    | RunOutcome.next none => SMResult.finished
    | RunOutcome.next (some s2) =>
        run_state_machine behavior error_state has_error_callback s2 (step + 1) fuel
    | RunOutcome.throw PyExc.endExperiment => SMResult.finished
    | RunOutcome.throw e =>
        -- `error_callback(e)` runs, then `raise` re-raises; the
        -- `state_name = error_state` line below the raise is unreachable
        SMResult.errored e has_error_callback

/-! ### `states.py` : `Session` and the trial loop it drives

`Session.run` is

```
try:
    self.experiment.session_main()
except EndSession:
    logger.info("Session has ended")
except KeyboardInterrupt:
    logger.info("Finishing experiment")
    self.experiment.end()
return "idle"
```

`session_main` (behavior/base.py) iterates the block's trial iterator and
calls `trial.run()` on each constructed `Trial`.  The iterator
(trials.py `TrialHandler.__iter__` / blocks.py `Block.__iter__`) constructs
the next `Trial` with the next index only when the `for` loop asks for it,
i.e. after the previous `trial.run()` returned.  `Trial.run` executes the
stage hooks in a fixed order and ends with `trial_post` then `store_data`.
In the go/no-go behavior (behavior/go_no_go_interrupt.py) `trial_post`
raises `EndSession` when `check_session_schedule()` is `False`; the base
hooks are no-ops.  `stopAt n` says whether that schedule check tells trial
`n`'s `trial_post` to end the session. -/
def session_main_run (stopAt : ℕ → Bool) :
    List ℕ → ℕ → List ℕ × Option PyExc
  | [], _i => ([], none)
  | _c :: cs, i =>
    let n := i + 1
    -- the trial with index `n` is constructed and run; its `trial_post`
    -- raises `EndSession` when the session schedule says to stop, and the
    -- exception unwinds through the generator without further trials
    if stopAt n then
      ([n], some PyExc.endSession)
    else
      let r := session_main_run stopAt cs n
      (n :: r.1, r.2)

/-- `Session.run`: result string (or propagated exception) together with
the list of trial indices that were constructed by the trial iterator. -/
def Session_run (stopAt : ℕ → Bool) (conditions : List ℕ) :
    Except PyExc String × List ℕ :=
  let r := session_main_run stopAt conditions 0
  match r.2 with
  | none => (Except.ok "idle", r.1)
  | some PyExc.endSession => (Except.ok "idle", r.1)
  | some PyExc.keyboardInterrupt => (Except.ok "idle", r.1)
  | some e => (Except.error e, r.1)

/-! ### `behavior/base.py` : `BaseExp.end`, the run loop guard, and
`Session.run`'s KeyboardInterrupt path

`BaseExp.end` is

```
def end(self):
    self.finshed = True
    self.panel.sleep()
```

Python attribute assignment creates the (misspelled) attribute `finshed`;
the attribute `finished` set to `False` in `__init__` is untouched.  The
run loop is `while self.finished is False: ...`.  We model the relevant
attribute dictionary explicitly: `finshed` is `none` until the misspelled
assignment first creates it. -/
structure ExpAttrs where
  finished : Bool
  finshed : Option Bool
  panelAwake : Bool
  deriving DecidableEq, Repr

/-- `BaseExp.end()` as written: sets the misspelled `finshed` attribute and
puts the panel to sleep. -/
def BaseExp_end (s : ExpAttrs) : ExpAttrs :=
  { s with finshed := some true, panelAwake := false }

/-- Guard of `BaseExp.run`'s loop: `while self.finished is False`. -/
def runLoopGuard (s : ExpAttrs) : Bool :=
  !s.finished

/-- The `except KeyboardInterrupt` arm of `Session.run`: it calls
`self.experiment.end()` and then falls through to `return "idle"`. -/
def Session_run_on_keyboard_interrupt (s : ExpAttrs) : String × ExpAttrs :=
  ("idle", BaseExp_end s)

/-! ### `subjects.py` : `Subject.store_data`

```
trial_dict = {}
for field in self.experiment.fields_to_save:
    try:
        trial_dict[field] = getattr(trial,field)
    except AttributeError:
        trial_dict[field] = trial.annotations[field]
    except KeyError:
        trial_dict[field] = None
```

Python semantics: only one `except` clause of a `try` runs, and it only
catches exceptions raised in the `try` body.  `getattr` raises
`AttributeError`, never `KeyError`, so the `except KeyError` arm is
unreachable; a `KeyError` raised *inside* the `AttributeError` handler by
`trial.annotations[field]` is not caught by the sibling clause and
propagates out of `store_data`.

`attrs` is the trial's attribute dictionary (a present attribute may hold
the Python value `None`, hence `Option ℕ` values), `annots` its
`annotations` dictionary. -/
def store_field (attrs annots : List (String × Option ℕ)) (field : String) :
    Except PyExc (Option ℕ) :=
  match attrs.lookup field with
  | some v => Except.ok v
  | none =>
    -- `except AttributeError:` handler: `trial.annotations[field]`
    match annots.lookup field with
    | some v => Except.ok v
    | none =>
      -- dict `__getitem__` raises `KeyError`; the sibling
      -- `except KeyError: trial_dict[field] = None` clause cannot catch
      -- an exception raised inside this handler, so it propagates
      Except.error PyExc.keyError

/-- `Subject.store_data`: builds the record field by field; an exception
raised while handling a field aborts the whole call. -/
def store_data (fields : List String)
    (attrs annots : List (String × Option ℕ)) :
    Except PyExc (List (String × Option ℕ)) :=
  match fields with
  | [] => Except.ok []
  | f :: fs =>
    match store_field attrs annots f with
    | Except.error e => Except.error e
    | Except.ok v =>
      match store_data fs attrs annots with
      | Except.error e => Except.error e
      | Except.ok rest => Except.ok ((f, v) :: rest)

/-! ### `queues.py` : `staircase_queue`

The repository is Python 2 code (`print` statements).  With the default
`reversals=None`, the stop test `nrev >= reversals` compares an `int` to
`None`; in Python 2 `None` sorts below every number, so the comparison is
`True`.  `py2_ge_none` embeds that comparison. -/
def py2_ge_none (nrev : ℕ) (reversals : Option ℕ) : Bool :=
  match reversals with
  | none => true   -- Python 2: `int >= None` is True
  | some m => decide (nrev ≥ m)

/-- The `if (max_val!=None) and (val > max_val): ... elif ...` rail clamp
of `staircase_queue`. -/
def staircase_clamp (min_val max_val : Option ℚ) (v : ℚ) : ℚ :=
  match max_val with
  | some mx =>
    if v > mx then mx
    else
      match min_val with
      | some mn => if v < mn then mn else v
      | none => v
  | none =>
    match min_val with
    | some mn => if v < mn then mn else v
    | none => v

/-- Body of `staircase_queue`'s `while cont` loop.  `outcomes` is the
stream of `experiment.trials[-1].correct` values the generator observes
before each subsequent draw (the generator suspends at each `yield`, so a
draw happens only when an outcome is available).  Returns the list of
yielded values together with the final reversal count `nrev`. -/
def staircase_loop (up down : ℤ) (step : ℚ) (min_val max_val : Option ℚ)
    (tr_min tr_max : ℕ) (reversals : Option ℕ) :
    List Bool → ℚ → Bool → ℕ → ℕ → List ℚ × ℕ
  | [], _val, _goingUp, _trNum, nrev => ([], nrev)
  | lastCorrect :: rest, val, goingUp, trNum, nrev =>
    -- staircase logic
    let chg : ℤ := if lastCorrect then -down else up
    let val1 := val + step * (chg : ℚ)
    -- check for reversal: consistent with the trend flag flips it
    let nrev1 := if lastCorrect == goingUp then nrev + 1 else nrev
    let goingUp1 := if lastCorrect == goingUp then !goingUp else goingUp
    -- stop at max/min if we hit the rails
    let val2 := staircase_clamp min_val max_val val1
    -- yield val2, then decide whether to stop iterating
    let trNum1 := trNum + 1
    let cont :=
      if trNum1 < tr_min then true
      else if trNum1 ≥ tr_max then false
      else if py2_ge_none nrev1 reversals then false
      else true
    if cont then
      let r := staircase_loop up down step min_val max_val tr_min tr_max
        reversals rest val2 goingUp1 trNum1 nrev1
      (val2 :: r.1, r.2)
    else
      ([val2], nrev1)

/-- `staircase_queue`: yields `start` first (`tr_num = 1`, `nrev = 0`,
`going_up = False`), then runs the loop. -/
def staircase_queue (outcomes : List Bool) (start : ℚ) (up down : ℤ)
    (step : ℚ) (min_val max_val : Option ℚ) (tr_min tr_max : ℕ)
    (reversals : Option ℕ) : List ℚ × ℕ :=
  let r := staircase_loop up down step min_val max_val tr_min tr_max
    reversals outcomes start false 1 0
  (start :: r.1, r.2)

/-! ### `behavior/base.py` : `set_session_trial_limit` and the count
scheduler it attaches -/

/-- Modelled from the spec: `states.CountScheduler` is referenced by
`BaseExp.set_session_trial_limit` (behavior/base.py) but the class is
absent from the source tree (`states.py` defines only `TimeOfDayScheduler`
and `TimeScheduler`).  Per the spec, a count scheduler holds an internal
counter and a configured maximum; the counter increments exactly once per
check call while active, and the check reports the limit tripped once the
counter reaches the maximum (`trigger_stop()` is false on calls 1 and 2
and true on call 3 when `max = 3`). -/
structure CountScheduler where
  max_trials : ℕ
  counter : ℕ
  deriving DecidableEq, Repr

/-- Modelled from the spec: one check call of the count scheduler —
increments the internal counter exactly once and reports whether the
configured maximum has been reached. -/
def CountScheduler.trigger_stop (s : CountScheduler) : Bool × CountScheduler :=
  let c := s.counter + 1
  (decide (c ≥ s.max_trials), { s with counter := c })

/-- Results of `n` successive `trigger_stop` calls, threading the
scheduler state. -/
def trigger_stop_calls : CountScheduler → ℕ → List Bool × CountScheduler
  | s, 0 => ([], s)
  | s, n + 1 =>
    let r := s.trigger_stop
    let rs := trigger_stop_calls r.2 n
    (r.1 :: rs.1, rs.2)

/-- `BaseExp.set_session_trial_limit` (behavior/base.py): appends
`CountScheduler(max_trials=max_trials)` to the session state's scheduler
list. -/
def set_session_trial_limit (schedulers : List CountScheduler)
    (maxTrials : ℕ) : List CountScheduler :=
  schedulers ++ [{ max_trials := maxTrials, counter := 0 }]

/-! ### `trials.py` / `blocks.py` : index assignment by the iterators

`TrialHandler.__iter__` (trials.py) and `Block.__iter__` (blocks.py) both
run

```
for condition in self.queue:
    trial_index += 1
    trial = Trial(index=trial_index, ...)
    yield trial
```

with the index starting at 0, and `BlockHandler.__iter__` (blocks.py) does
the same for blocks (`self.block_index += 1; block.index =
self.block_index; yield block`).  The queue is embedded as the list of
items it yields. -/
structure TrialObj where
  index : ℕ
  condition : ℕ
  deriving DecidableEq, Repr

/-- `TrialHandler.__iter__` / `Block.__iter__`: the trials yielded for a
queue of conditions, starting from index value `i` (0 for a fresh
iterator). -/
def TrialHandler_iter : List ℕ → ℕ → List TrialObj
  | [], _i => []
  | c :: cs, i => { index := i + 1, condition := c } :: TrialHandler_iter cs (i + 1)

/-- `BlockHandler.__iter__`: each yielded block is assigned the next block
index. -/
def BlockHandler_iter {β : Type} : List β → ℕ → List (ℕ × β)
  | [], _i => []
  | b :: bs, i => (i + 1, b) :: BlockHandler_iter bs (i + 1)

/-! ### `behavior/base.py` `session_main` + `trials.py` `Trial.run` as an
event trace

`session_main` runs `for trial in <trial iterator>: trial.run()`.  The
generator constructs the `Trial` for the next condition only when the
`for` loop requests it, i.e. after the previous `trial.run()` returned.
`Trial.run` executes, in order: `condition.get()`, `trial_pre`, the three
stimulus hooks, the three response hooks, the three consequate hooks,
`trial_post`, and finally `subject.store_data(self)` (whose `CSVStore`
result — success or failure — is the persistence attempt's outcome). -/
inductive Ev where
  | construct (n : ℕ)
  | getStimulus (n : ℕ)
  | trialPre (n : ℕ)
  | stimulusPre (n : ℕ)
  | stimulusMain (n : ℕ)
  | stimulusPost (n : ℕ)
  | responsePre (n : ℕ)
  | responseMain (n : ℕ)
  | responsePost (n : ℕ)
  | consequatePre (n : ℕ)
  | consequateMain (n : ℕ)
  | consequatePost (n : ℕ)
  | trialPost (n : ℕ)
  | storeAttempt (n : ℕ) (ok : Bool)
  deriving DecidableEq, Repr

/-- Events of `Trial.run` for trial `n`, in source order; `storeOk` is the
outcome of the `store_data` persistence attempt. -/
def Trial_run_events (n : ℕ) (storeOk : ℕ → Bool) : List Ev :=
  [Ev.getStimulus n, Ev.trialPre n,
   Ev.stimulusPre n, Ev.stimulusMain n, Ev.stimulusPost n,
   Ev.responsePre n, Ev.responseMain n, Ev.responsePost n,
   Ev.consequatePre n, Ev.consequateMain n, Ev.consequatePost n,
   Ev.trialPost n, Ev.storeAttempt n (storeOk n)]

/-- Event trace of `session_main` iterating one block: the iterator
constructs trial `i+1`, `trial.run()` executes its stages, and only then
is the next trial constructed. -/
def session_main_trace (storeOk : ℕ → Bool) : List ℕ → ℕ → List Ev
  | [], _i => []
  | _c :: cs, i =>
    Ev.construct (i + 1) ::
      (Trial_run_events (i + 1) storeOk ++ session_main_trace storeOk cs (i + 1))

/-! ## Helper lemmas -/

lemma pollLoop_all_false (t : ℕ) :
    ∀ (fuel n : ℕ), pollLoop (fun _ => false) (some t) n fuel = none := by
  intro fuel
  induction fuel with
  | zero => intro n; rfl
  | succ fuel ih => intro n; simpa [pollLoop] using ih (n + 1)

lemma idleCheckLoop_eq_none : ∀ fuel : ℕ, idleCheckLoop fuel = none := by
  intro fuel
  induction fuel with
  | zero => rfl
  | succ fuel ih => simpa [idleCheckLoop] using ih

lemma trigger_stop_calls_counter :
    ∀ (n : ℕ) (s : CountScheduler),
      (trigger_stop_calls s n).2.counter = s.counter + n := by
  intro n
  induction n with
  | zero => intro s; simp [trigger_stop_calls]
  | succ n ih =>
    intro s
    simp [trigger_stop_calls, CountScheduler.trigger_stop, ih]
    omega

lemma TrialHandler_iter_map_index :
    ∀ (cs : List ℕ) (i : ℕ),
      (TrialHandler_iter cs i).map TrialObj.index = List.range' (i + 1) cs.length := by
  intro cs
  induction cs with
  | nil => intro i; simp [TrialHandler_iter, List.range']
  | cons c cs ih => intro i; simp [TrialHandler_iter, List.range', ih]

lemma BlockHandler_iter_map_fst {β : Type} :
    ∀ (bs : List β) (i : ℕ),
      (BlockHandler_iter bs i).map Prod.fst = List.range' (i + 1) bs.length := by
  intro bs
  induction bs with
  | nil => intro i; simp [BlockHandler_iter, List.range']
  | cons b bs ih => intro i; simp [BlockHandler_iter, List.range', ih]

/-! ## Claim theorems -/

/-- Claim C1 (code bug): an input whose readings are always false, polled
with a finite timeout, never makes `BaseInterface._poll` return — for
every iteration bound the loop is still running.  The source's timeout
branch only logs "Polling timed out. Returning" without returning, so the
"returns none when the timeout elapses" behavior claimed by the
specification does not exist in the code. -/
theorem claim_C1_poll_never_times_out :
    ∀ (t fuel n : ℕ), pollLoop (fun _ => false) (some t) n fuel = none := by
  intro t fuel n
  exact pollLoop_all_false t fuel n

/-- Claim C2 (code bug): `Idle.run` never returns any of "sleep",
"session" or "idle" — the `while True` scheduler-checking loop at the top
of the method has no exit, so for every iteration bound the method has
produced no result, and the schedule-dispatch block the claim describes is
unreachable. -/
theorem claim_C2_idle_run_never_returns :
    ∀ (lightScheduleOk sessionScheduleOk : Bool) (fuel : ℕ),
      Idle_run lightScheduleOk sessionScheduleOk fuel = none := by
  intro lightScheduleOk sessionScheduleOk fuel
  simp [Idle_run, idleCheckLoop_eq_none]


lemma session_main_run_stops (stopAt : ℕ → Bool) :
    ∀ (cs : List ℕ) (i k : ℕ), i < k → k ≤ i + cs.length →
      stopAt k = true → (∀ j, i < j → j < k → stopAt j = false) →
      session_main_run stopAt cs i =
        (List.range' (i + 1) (k - i), some PyExc.endSession) := by
  intro cs
  induction cs with
  | nil =>
    intro i k h1 h2 _ _
    simp at h2
    omega
  | cons c cs ih =>
    intro i k h1 h2 hk hbefore
    by_cases hik : k = i + 1
    · subst hik
      have hs : stopAt (i + 1) = true := hk
      have hlen : i + 1 - i = 1 := by omega
      simp [session_main_run, hs, hlen, List.range']
    · have hlt : i + 1 < k := by omega
      have hs : stopAt (i + 1) = false := hbefore (i + 1) (by omega) hlt
      have hrec := ih (i + 1) k hlt (by simp at h2 ⊢; omega) hk
        (fun j hj1 hj2 => hbefore j (by omega) hj2)
      have hlen : k - i = (k - (i + 1)) + 1 := by omega
      simp [session_main_run, hs, hrec, hlen, List.range']

/-- Claim C3: when `trial_post` raises the `EndSession` signal at trial `k`
(the first trial at which the session-schedule check says to stop),
`Session.run` catches it and returns "idle" normally — not an error — and
the trial iterator constructs exactly the trials `1, …, k`, none after the
signal. -/
theorem claim_C3_end_session_is_caught (stopAt : ℕ → Bool) (cs : List ℕ)
    (k : ℕ) (h1 : 1 ≤ k) (h2 : k ≤ cs.length) (h3 : stopAt k = true)
    (h4 : ∀ j, 1 ≤ j → j < k → stopAt j = false) :
    Session_run stopAt cs = (Except.ok "idle", List.range' 1 k) := by
  have h := session_main_run_stops stopAt cs 0 k (by omega) (by omega) h3
    (fun j hj1 hj2 => h4 j (by omega) hj2)
  simp [Session_run, h]

/-- Witness for claim C3: with three conditions queued and the schedule
check stopping at trial 2, the session ends via the caught signal after
constructing exactly trials 1 and 2. -/
theorem claim_C3_witness :
    Session_run (fun n => n == 2) [0, 0, 0] = (Except.ok "idle", [1, 2]) := by
  have h := claim_C3_end_session_is_caught (fun n => n == 2) [0, 0, 0] 2
    (by decide) (by decide) (by decide)
    (by
      intro j hj1 hj2
      have hj : j = 1 := by omega
      subst hj
      decide)
  simpa [List.range'] using h

/-- Claim C4 (code bug): with a recovery state configured and a state
whose `run` raises an exception that is neither `EndSession` nor
`EndExperiment`, `run_state_machine` invokes the error callback
(`callbackInvoked = true`) and then the exception propagates out — the
loop does not continue in the configured recovery state, because the
assignment `state_name = error_state` sits after an unconditional
re-raise. -/
theorem claim_C4_error_propagates :
    ∀ fuel : ℕ,
      run_state_machine (fun _ _ => RunOutcome.throw PyExc.valueError)
        (some "idle") true "idle" 0 (fuel + 1) =
        SMResult.errored PyExc.valueError true :=
  fun _ => rfl

/-- Claim C5 (code bug): a field listed in `fields_to_save` that is
neither an attribute of the trial nor a key of its annotations makes
`store_data` raise `KeyError` (from `trial.annotations[field]` inside the
`AttributeError` handler, which the sibling `except KeyError` clause
cannot catch) instead of producing a record with the field set to null. -/
theorem claim_C5_store_data_raises_key_error :
    store_data ["response"] [] [] = Except.error PyExc.keyError := rfl

/-- Claim C6 counterexample: with every parameter other than
`start=10, up=1, down=3, step=1` left at its default — in particular
`reversals=None` — the staircase stops after its second yield, because the
Python 2 comparison `nrev >= None` is true; the produced sequence is
`[10, 7]` with zero reversals, not `[10, 7, 4, 5]` with one. -/
theorem claim_C6_counterexample :
    staircase_queue [true, true, false] 10 1 3 1 none none 0 100 none =
      ([10, 7], 0) ∧
    staircase_queue [true, true, false] 10 1 3 1 none none 0 100 none ≠
      ([10, 7, 4, 5], 1) := by
  have h : staircase_queue [true, true, false] 10 1 3 1 none none 0 100 none =
      ([10, 7], 0) := by
    norm_num [staircase_queue, staircase_loop, staircase_clamp, py2_ge_none]
  refine ⟨h, ?_⟩
  rw [h]
  simp [Prod.ext_iff]

/-- Claim C6 as amended: the staircase queue called with `start=10, up=1,
down=3, step=1` and `reversals=1` (all remaining parameters at their
defaults), observing outcomes correct, correct, incorrect before the
subsequent draws, yields exactly `[10, 7, 4, 5]` and records exactly one
reversal, at the draw where the trend direction flips. -/
theorem claim_C6_amended :
    staircase_queue [true, true, false] 10 1 3 1 none none 0 100 (some 1) =
      ([10, 7, 4, 5], 1) := by
  norm_num [staircase_queue, staircase_loop, staircase_clamp, py2_ge_none]

/-- Claim C7: the count scheduler attached by
`set_session_trial_limit(max_trials=3)` starts with its counter at zero;
its first two `trigger_stop` checks report `false` and the third reports
`true`, and the internal counter increments exactly once per check (after
`n` checks it equals `n`). -/
theorem claim_C7_count_scheduler :
    set_session_trial_limit [] 3 = [{ max_trials := 3, counter := 0 }] ∧
    (trigger_stop_calls { max_trials := 3, counter := 0 } 3).1 =
      [false, false, true] ∧
    ∀ n : ℕ,
      (trigger_stop_calls { max_trials := 3, counter := 0 } n).2.counter = n := by
  refine ⟨rfl, rfl, fun n => ?_⟩
  simpa using trigger_stop_calls_counter n { max_trials := 3, counter := 0 }

/-- Claim C8: a fresh trial iterator yields trials whose indices are
exactly `1, 2, …, len` in order (increasing by exactly 1, no gaps or
repeats), and a fresh `BlockHandler` assigns the blocks it yields the
indices `1, 2, …, len` likewise. -/
theorem claim_C8_strictly_increasing_indices :
    ∀ (cs : List ℕ) {β : Type} (bs : List β),
      (TrialHandler_iter cs 0).map TrialObj.index = List.range' 1 cs.length ∧
      (BlockHandler_iter bs 0).map Prod.fst = List.range' 1 bs.length := by
  intro cs β bs
  exact ⟨by simpa using TrialHandler_iter_map_index cs 0,
    by simpa using BlockHandler_iter_map_fst bs 0⟩

lemma construct_not_mem_trial_run_events (m n : ℕ) (storeOk : ℕ → Bool) :
    Ev.construct m ∉ Trial_run_events n storeOk := by
  simp [Trial_run_events]

lemma session_trace_order (storeOk : ℕ → Bool) :
    ∀ (cs : List ℕ) (i n : ℕ), i ≤ n →
      Ev.construct (n + 2) ∈ session_main_trace storeOk cs i →
      ([Ev.consequatePre (n + 1), Ev.consequateMain (n + 1),
        Ev.consequatePost (n + 1), Ev.storeAttempt (n + 1) (storeOk (n + 1)),
        Ev.construct (n + 2)]).Sublist (session_main_trace storeOk cs i) := by
  intro cs
  induction cs with
  | nil =>
    intro i n _ h
    simp [session_main_trace] at h
  | cons c cs ih =>
    intro i n hin h
    by_cases hni : n = i
    · subst hni
      have hmem : Ev.construct (n + 2) ∈ session_main_trace storeOk cs (n + 1) := by
        simpa [session_main_trace, Trial_run_events] using h
      refine List.Sublist.cons _ ?_
      have h4 : ([Ev.consequatePre (n + 1), Ev.consequateMain (n + 1),
          Ev.consequatePost (n + 1),
          Ev.storeAttempt (n + 1) (storeOk (n + 1))]).Sublist
          (Trial_run_events (n + 1) storeOk) :=
        List.Sublist.cons _ <| List.Sublist.cons _ <| List.Sublist.cons _ <|
        List.Sublist.cons _ <| List.Sublist.cons _ <| List.Sublist.cons _ <|
        List.Sublist.cons _ <| List.Sublist.cons _ <|
        List.Sublist.cons₂ _ <| List.Sublist.cons₂ _ <| List.Sublist.cons₂ _ <|
        List.Sublist.cons _ <| List.Sublist.cons₂ _ <| List.Sublist.slnil
      have h5 : ([Ev.construct (n + 2)]).Sublist
          (session_main_trace storeOk cs (n + 1)) :=
        List.singleton_sublist.mpr hmem
      exact List.Sublist.append h4 h5
    · have hlt : i + 1 ≤ n := by omega
      have hmem : Ev.construct (n + 2) ∈ session_main_trace storeOk cs (i + 1) := by
        simp [session_main_trace, Trial_run_events] at h
        rcases h with h | h
        · omega
        · exact h
      exact List.Sublist.cons _
        ((ih (i + 1) n hlt hmem).trans (List.sublist_append_right _ _))

/-- Claim C9: in the event trace of `session_main`, whenever trial `N+1`
is constructed, trial `N`'s three consequate stages and its persistence
attempt (the `store_data` call, with whichever outcome it had) all occur
strictly earlier in the trace — the order witnessed by the sublist. -/
theorem claim_C9_consequate_and_store_before_next_construct
    (storeOk : ℕ → Bool) (cs : List ℕ) (n : ℕ)
    (h : Ev.construct (n + 2) ∈ session_main_trace storeOk cs 0) :
    ([Ev.consequatePre (n + 1), Ev.consequateMain (n + 1),
      Ev.consequatePost (n + 1), Ev.storeAttempt (n + 1) (storeOk (n + 1)),
      Ev.construct (n + 2)]).Sublist (session_main_trace storeOk cs 0) :=
  session_trace_order storeOk cs 0 n (Nat.zero_le n) h

/-- Witness for claim C9: with two queued conditions and successful
stores, trial 1's consequate stages and store attempt precede the
construction of trial 2. -/
theorem claim_C9_witness :
    ([Ev.consequatePre 1, Ev.consequateMain 1, Ev.consequatePost 1,
      Ev.storeAttempt 1 true, Ev.construct 2]).Sublist
      (session_main_trace (fun _ => true) [7, 8] 0) := by
  simpa using claim_C9_consequate_and_store_before_next_construct
    (fun _ => true) [7, 8] 0 (by decide)

/-- Claim C10: `BaseExp.end()` assigns the misspelled attribute `finshed`
and therefore leaves `finished` unchanged, so the `while self.finished is
False` guard of the run loop is unaffected by any call to `end()` —
including the one made by `Session.run`'s KeyboardInterrupt handler, which
still returns "idle". -/
theorem claim_C10_end_never_stops_run_loop :
    ∀ s : ExpAttrs,
      (BaseExp_end s).finished = s.finished ∧
      runLoopGuard (BaseExp_end s) = runLoopGuard s ∧
      (Session_run_on_keyboard_interrupt s).1 = "idle" ∧
      (Session_run_on_keyboard_interrupt s).2.finished = s.finished := by
  intro s
  simp [BaseExp_end, runLoopGuard, Session_run_on_keyboard_interrupt]

end Pyoperant
